import Mathlib

/-!
Verification development for the flashcards quiz core:
distractor generation, question building, quiz session management and
adaptive difficulty adjustment, shallowly embedded from the TypeScript
sources (src/utils/distractorGenerator.ts, src/utils/quizSessionManager.ts,
adaptiveDifficulty module, src/utils/settingsManager.ts).

Conventions of the embedding:
- TS numbers are rationals; timestamps are passed in as explicit clock
  parameters instead of reading Date.now.
- Math.random based choices are injected: the option shuffle is a function
  parameter, the random card pick is a stream of naturals taken modulo the
  number of available cards (Math.floor of random times length always lands
  in range).
- String lookup objects become association lists with the same default
  behaviour as the JS index-plus-fallback expressions.
-/

/-- Card record from src/types/card.ts. Tense and verb type are string
unions in TS; they are carried as strings here. -/
structure Card where
  id : String
  phrase : String
  verb : String
  tense : String
  subject : String
  correctAnswer : String
  verbType : String
  category : String
deriving DecidableEq

instance : Inhabited Card := ⟨⟨"", "", "", "", "", "", "", ""⟩⟩

/-- QuizAnswer record from src/types/quiz.ts. -/
structure QuizAnswer where
  questionId : String
  selectedAnswer : String
  selectedIndex : Nat
  isCorrect : Bool
  timeSpent : ℚ
deriving DecidableEq

/-- QuizQuestion record from src/types/quiz.ts. The correct answer index is
an integer because the JS indexOf convention can produce minus one. -/
structure QuizQuestion where
  id : String
  question : String
  options : List String
  correctAnswer : String
  correctAnswerIndex : Int
  cardId : String
deriving DecidableEq

/-- Spreading an array through a JS Set keeps the first occurrence of every
element in insertion order; this scan with the set of already seen elements
is that deduplication. -/
def dedupFirstAux (seen : List String) : List String → List String
  | [] => []
  | x :: xs =>
    if x ∈ seen then dedupFirstAux seen xs
    else x :: dedupFirstAux (seen ++ [x]) xs

/-- Deduplication keeping first occurrences, see dedupFirstAux. -/
def dedupFirst (l : List String) : List String :=
  dedupFirstAux [] l

/-- The commonMisspellings lookup table from distractorGenerator.ts.
Every key except comi maps to four copies of itself, exactly as in the
source. -/
def commonMisspellings : List (String × List String) :=
  [ ("comi", ["comei", "comi", "comu", "come"]),
    ("comemos", ["comemos", "comemos", "comemos", "comemos"]),
    ("falava", ["falava", "falava", "falava", "falava"]),
    ("viviam", ["viviam", "viviam", "viviam", "viviam"]),
    ("fora", ["fora", "fora", "fora", "fora"]),
    ("tínhamos feito", ["tínhamos feito", "tínhamos feito", "tínhamos feito", "tínhamos feito"]),
    ("viajarei", ["viajarei", "viajarei", "viajarei", "viajarei"]),
    ("trabalharão", ["trabalharão", "trabalharão", "trabalharão", "trabalharão"]),
    ("estudaria", ["estudaria", "estudaria", "estudaria", "estudaria"]),
    ("compraríamos", ["compraríamos", "compraríamos", "compraríamos", "compraríamos"]),
    ("seja", ["seja", "seja", "seja", "seja"]),
    ("tenhamos", ["tenhamos", "tenhamos", "tenhamos", "tenhamos"]),
    ("pudesse", ["pudesse", "pudesse", "pudesse", "pudesse"]),
    ("soubéssemos", ["soubéssemos", "soubéssemos", "soubéssemos", "soubéssemos"]),
    ("chegarem", ["chegarem", "chegarem", "chegarem", "chegarem"]),
    ("terminar", ["terminar", "terminar", "terminar", "terminar"]),
    ("tivesse estudado", ["tivesse estudado", "tivesse estudado", "tivesse estudado", "tivesse estudado"]),
    ("tivéssemos feito", ["tivéssemos feito", "tivéssemos feito", "tivéssemos feito", "tivéssemos feito"]),
    ("bebeste", ["bebeste", "bebeste", "bebeste", "bebeste"]),
    ("partíeis", ["partíeis", "partíeis", "partíeis", "partíeis"]) ]

/-- JS object index with a fallback to the empty array:
commonMisspellings at answer, or empty. -/
def lookupMisspellings (answer : String) : List String :=
  match commonMisspellings.find? (fun p => p.1 = answer) with
  | some p => p.2
  | none => []

/-- One character of the accent stripping step. The source computes
normalize NFD followed by removal of the combining marks in the range
0300 to 036f; on the precomposed Latin letters of Portuguese data this is
exactly the base letter, which is what this map returns. -/
def stripChar (c : Char) : Char :=
  if c = 'á' then 'a' else if c = 'â' then 'a' else if c = 'ã' then 'a'
  else if c = 'à' then 'a' else if c = 'é' then 'e' else if c = 'ê' then 'e'
  else if c = 'í' then 'i' else if c = 'ó' then 'o' else if c = 'ô' then 'o'
  else if c = 'õ' then 'o' else if c = 'ú' then 'u' else if c = 'ü' then 'u'
  else if c = 'ç' then 'c' else c

/-- Accent removal over a whole string, see stripChar. -/
def stripDiacritics (s : String) : String :=
  String.mk (s.data.map stripChar)

/-- generateMisspellings from distractorGenerator.ts lines 30 to 51. -/
def generateMisspellings (answer : String) : List String :=
  let misspellings := lookupMisspellings answer
  if misspellings.length > 0 then
    misspellings.take 2
  else
    let withoutAccents := stripDiacritics answer
    let l1 := if withoutAccents ≠ answer then [withoutAccents] else []
    let l2 := if answer.length > 3 then [answer ++ "s"] else []
    (l1 ++ l2).take 2

/-- Push loop used by priorities 1 and 2 of generateDistractors: stop at
three collected, skip candidates already collected. -/
def pushFreshUpTo3 (distractors : List String) : List String → List String
  | [] => distractors
  | c :: rest =>
    if distractors.length ≥ 3 then distractors
    else if c ∈ distractors then pushFreshUpTo3 distractors rest
    else pushFreshUpTo3 (distractors ++ [c]) rest

/-- Push loop used by priorities 3 and 4 of generateDistractors: the
membership test happens once in the preceding filter, so inside the loop
candidates are pushed without a freshness check (the source can therefore
push the same answer twice within one priority stage). -/
def pushUpTo3 (distractors : List String) : List String → List String
  | [] => distractors
  | c :: rest =>
    if distractors.length ≥ 3 then distractors
    else pushUpTo3 (distractors ++ [c]) rest

/-- generateDistractors from distractorGenerator.ts lines 55 to 130.
The final while loop of the source pushes the same string
correctAnswer plus s at most once and then breaks, which is the last
conditional here. -/
def generateDistractors (card : Card) (allCards : List Card) : List String :=
  let correctAnswer := card.correctAnswer
  let verb := card.verb
  let sameVerbCards := allCards.filter (fun c =>
    decide (c.verb = verb ∧ c.id ≠ card.id ∧ c.correctAnswer ≠ correctAnswer))
  let d1 := pushFreshUpTo3 [] (sameVerbCards.map (fun c => c.correctAnswer))
  let d2 :=
    if d1.length < 3 then pushFreshUpTo3 d1 (generateMisspellings correctAnswer)
    else d1
  let d3 :=
    if d2.length < 3 then
      let sameTenseCards := allCards.filter (fun c =>
        decide (c.tense = card.tense ∧ c.verb ≠ verb ∧ c.id ≠ card.id ∧
          c.correctAnswer ≠ correctAnswer ∧ c.correctAnswer ∉ d2))
      pushUpTo3 d2 (sameTenseCards.map (fun c => c.correctAnswer))
    else d2
  let d4 :=
    if d3.length < 3 then
      let otherCards := allCards.filter (fun c =>
        decide (c.id ≠ card.id ∧ c.correctAnswer ≠ correctAnswer ∧
          c.correctAnswer ∉ d3))
      pushUpTo3 d3 (otherCards.map (fun c => c.correctAnswer))
    else d3
  let uniqueDistractors := (dedupFirst d4).take 3
  let simpleVariation := correctAnswer ++ "s"
  if uniqueDistractors.length < 3 ∧ simpleVariation ∉ uniqueDistractors then
    uniqueDistractors ++ [simpleVariation]
  else uniqueDistractors

/-- Inner for loop of the question builder retry: add distractors not yet
among the options, stopping once four options exist
(distractorGenerator.ts lines 143 to 149). -/
def addFreshUpTo4 (opts : List String) : List String → List String
  | [] => opts
  | c :: rest =>
    if c ∈ opts then addFreshUpTo4 opts rest
    else
      let opts2 := opts ++ [c]
      if opts2.length ≥ 4 then opts2 else addFreshUpTo4 opts2 rest

/-- JS Array.indexOf: position of the first occurrence, minus one when the
element is absent. -/
def jsIndexOf (l : List String) (s : String) : Int :=
  if s ∈ l then (l.indexOf s : Int) else -1

/-- createQuizQuestion from distractorGenerator.ts lines 133 to 172.
The shuffle of the four options (a sort with a random comparator in the
source) is injected as the parameter sh; the Date.now timestamp used in the
question id is the parameter now. The source while loop runs its body at
most once: after one regeneration round it either has four options or
pushes the fallback correctAnswer plus x and breaks, which is unrolled
here. -/
def createQuizQuestion (sh : List String → List String) (now : Nat)
    (card : Card) (allCards : List Card) : QuizQuestion :=
  let correctAnswer := card.correctAnswer
  let distractors := generateDistractors card allCards
  let allOptions := correctAnswer :: distractors
  let uniqueOptions := dedupFirst allOptions
  let u2 :=
    if uniqueOptions.length < 4 then
      addFreshUpTo4 uniqueOptions (generateDistractors card allCards)
    else uniqueOptions
  let u3 := if u2.length < 4 then u2 ++ [correctAnswer ++ "x"] else u2
  let finalOptions := u3.take 4
  let shuffledOptions := sh finalOptions
  let correctAnswerIndex := jsIndexOf shuffledOptions correctAnswer
  { id := "quiz_" ++ card.id ++ "_" ++ toString now
    question := card.phrase
    options := shuffledOptions
    correctAnswer := correctAnswer
    correctAnswerIndex := correctAnswerIndex
    cardId := card.id }

/-- While loop of generateQuizQuestions (distractorGenerator.ts lines 184
to 194): repeatedly pick a random card whose id is not used yet and build a
question from it. The fuel argument is the number of questions still to
produce; pick is the injected stream of random choices, consumed modulo the
number of available cards. -/
def genLoop (sh : List String → List String) (now : Nat) (pick : Nat → Nat)
    (cards : List Card) : Nat → Nat → List String → List QuizQuestion
  | 0, _, _ => []
  | fuel + 1, step, used =>
    let availableCards := cards.filter (fun c => decide (c.id ∉ used))
    if availableCards.length = 0 then []
    else
      let idx := pick step % availableCards.length
      let randomCard := availableCards.getD idx default
      createQuizQuestion sh now randomCard cards ::
        genLoop sh now pick cards fuel (step + 1) (randomCard.id :: used)

/-- generateQuizQuestions from distractorGenerator.ts lines 175 to 197. -/
def generateQuizQuestions (sh : List String → List String) (now : Nat)
    (pick : Nat → Nat) (cards : List Card) (count : Nat) : List QuizQuestion :=
  if cards.length = 0 then []
  else genLoop sh now pick cards (min count cards.length) 0 []

/-- DifficultyLevel record from the adaptive difficulty module. -/
structure DifficultyLevel where
  level : String
  multiplier : ℚ
  description : String
deriving DecidableEq

/-- The four ordered difficulty levels of the adaptive difficulty module,
with their multipliers. -/
def difficultyLevels : List DifficultyLevel :=
  [ ⟨"beginner", 1, "Basic questions with common verbs and simple tenses"⟩,
    ⟨"intermediate", 13/10, "Moderate difficulty with mixed verb types and tenses"⟩,
    ⟨"advanced", 8/5, "Challenging questions with complex tenses and irregular verbs"⟩,
    ⟨"expert", 2, "Expert level with rare tenses and complex irregular verbs"⟩ ]

/-- Tense difficulty lookup of the adaptive difficulty module. The lookup
site reads the table with a fallback to 1.0, reproduced here. -/
def tenseDifficulty (t : String) : ℚ :=
  if t = "pretérito_perfeito" then 1
  else if t = "pretérito_imperfeito" then 6/5
  else if t = "pretérito_mais_que_perfeito" then 9/5
  else if t = "futuro_do_presente" then 11/10
  else if t = "futuro_do_pretérito" then 3/2
  else if t = "presente_do_subjuntivo" then 7/5
  else if t = "imperfeito_do_subjuntivo" then 17/10
  else if t = "futuro_do_subjuntivo" then 19/10
  else if t = "pluscuamperfecto_do_subjuntivo" then 2
  else 1

/-- Verb type difficulty lookup, fallback 1.0 as at the lookup site. -/
def verbTypeDifficulty (v : String) : ℚ :=
  if v = "regular" then 1 else if v = "irregular" then 3/2 else 1

/-- Verb frequency lookup of the adaptive difficulty module; verbs absent
from the table default to 2.0 (treated as rare). -/
def verbFrequency (v : String) : ℚ :=
  if v = "ser" then 1 else if v = "estar" then 1 else if v = "ter" then 1
  else if v = "ir" then 1 else if v = "fazer" then 1 else if v = "comer" then 1
  else if v = "falar" then 1 else if v = "viver" then 1
  else if v = "trabalhar" then 11/10 else if v = "estudar" then 11/10
  else if v = "gostar" then 11/10 else if v = "precisar" then 6/5
  else if v = "querer" then 6/5 else if v = "poder" then 6/5
  else if v = "saber" then 13/10 else if v = "conhecer" then 13/10
  else if v = "partir" then 7/5 else if v = "vir" then 7/5
  else if v = "trazer" then 3/2 else if v = "dizer" then 3/2
  else if v = "dar" then 3/2 else if v = "ver" then 8/5
  else if v = "ouvir" then 8/5 else if v = "ler" then 17/10
  else if v = "escrever" then 17/10 else if v = "abrir" then 9/5
  else if v = "fechar" then 9/5 else if v = "começar" then 19/10
  else if v = "acabar" then 19/10 else if v = "chegar" then 2
  else if v = "viajar" then 2 else if v = "comprar" then 2
  else if v = "beber" then 2 else if v = "amar" then 2
  else if v = "odiar" then 2 else if v = "temer" then 2
  else if v = "tentar" then 2 else if v = "esperar" then 2
  else 2

/-- AdaptiveSettings record of the adaptive difficulty module. -/
structure AdaptiveSettings where
  enableAdaptiveDifficulty : Bool
  difficultyAdjustmentSpeed : ℚ
  minimumQuestionsForAdjustment : Nat
  performanceWindow : Nat
deriving DecidableEq

/-- Default adaptive settings; the same four values are also the defaults
of the settings manager (settingsManager.ts DEFAULT_SETTINGS). -/
def defaultAdaptiveSettings : AdaptiveSettings :=
  ⟨true, 3/10, 5, 10⟩

/-- Mutable state of the AdaptiveDifficultyManager. The source stores the
current DifficultyLevel record and recovers its index with findIndex over
the four pairwise distinct level names, which round trips; the state here
stores that index directly. -/
structure AdaptiveState where
  performanceHistory : List QuizAnswer
  currentLevelIndex : Nat
  settings : AdaptiveSettings
deriving DecidableEq

/-- Initial manager state: beginner level, empty history, default
settings. -/
def initialAdaptiveState : AdaptiveState :=
  ⟨[], 0, defaultAdaptiveSettings⟩

/-- Current difficulty record of a state (the source keeps the record
itself; the index is always in range, see the C9 theorem below). -/
def currentDifficulty (st : AdaptiveState) : DifficultyLevel :=
  difficultyLevels.getD st.currentLevelIndex
    ⟨"beginner", 1, "Basic questions with common verbs and simple tenses"⟩

/-- UserPerformance record of the adaptive difficulty module. The two
accuracy maps of the source are always returned empty and are omitted. -/
structure UserPerformance where
  overallAccuracy : ℚ
  recentAccuracy : ℚ
  averageTimePerQuestion : ℚ
  streakCount : Int
  totalQuestionsAnswered : Nat
deriving DecidableEq

/-- calculateCardDifficulty: weighted sum of the three lookups
(tense times 0.4 plus verb type times 0.3 plus verb frequency times
0.3). -/
def calculateCardDifficulty (card : Card) : ℚ :=
  (tenseDifficulty card.tense * (4/10)) + (verbTypeDifficulty card.verbType * (3/10)) +
    (verbFrequency card.verb * (3/10))

/-- JS slice with negative start: last w elements of the list, the whole
list when w is zero (slice of minus zero is slice of zero) or exceeds the
length. -/
def lastWindow (l : List QuizAnswer) (w : Nat) : List QuizAnswer :=
  if w = 0 then l else l.drop (l.length - w)

/-- Streak computation of calculateUserPerformance: count of consecutive
correct answers scanning backward from the end, stopping at the first
incorrect one. The counter only increments, so it is never negative. -/
def streakOf (answers : List QuizAnswer) : Int :=
  ((answers.reverse.takeWhile (fun a => a.isCorrect)).length : Int)

/-- calculateUserPerformance of the adaptive difficulty module. -/
def calculateUserPerformance (st : AdaptiveState) : UserPerformance :=
  let recentAnswers := lastWindow st.performanceHistory st.settings.performanceWindow
  if recentAnswers.length = 0 then
    ⟨0, 0, 0, 0, 0⟩
  else
    let correctAnswers := (recentAnswers.filter (fun a => a.isCorrect)).length
    let recentAccuracy : ℚ := (correctAnswers : ℚ) / (recentAnswers.length : ℚ)
    let streakCount := streakOf recentAnswers
    let totalTime := (recentAnswers.map (fun a => a.timeSpent)).sum
    let averageTimePerQuestion := totalTime / (recentAnswers.length : ℚ)
    ⟨recentAccuracy, recentAccuracy, averageTimePerQuestion, streakCount,
      st.performanceHistory.length⟩

/-- updateDifficulty of the adaptive difficulty module: desired one tier
move when the thresholds are met, then the adjustment speed damping with
rounding and clamping to the level range. -/
def updateDifficulty (st : AdaptiveState) : AdaptiveState :=
  let performance := calculateUserPerformance st
  let currentLevelIndex : Int := (st.currentLevelIndex : Int)
  let newLevelIndex : Int :=
    if performance.recentAccuracy ≥ 8/10 ∧ performance.streakCount ≥ 3 then
      min (currentLevelIndex + 1) ((difficultyLevels.length : Int) - 1)
    else if performance.recentAccuracy ≤ 4/10 ∧ performance.streakCount ≤ -2 then
      max (currentLevelIndex - 1) 0
    else currentLevelIndex
  let committed : Int :=
    if newLevelIndex ≠ currentLevelIndex then
      let adjustment := ((newLevelIndex - currentLevelIndex : Int) : ℚ) *
        st.settings.difficultyAdjustmentSpeed
      let adjustedIndex := round ((currentLevelIndex : ℚ) + adjustment)
      max 0 (min adjustedIndex ((difficultyLevels.length : Int) - 1))
    else newLevelIndex
  { st with currentLevelIndex := committed.toNat }

/-- recordAnswer of the adaptive difficulty module: append to the history,
drop the oldest entry when the window overflows, and run an adjustment
once the history is at least the minimum question count. -/
def adRecordAnswer (st : AdaptiveState) (answer : QuizAnswer) : AdaptiveState :=
  let history := st.performanceHistory ++ [answer]
  let history :=
    if history.length > st.settings.performanceWindow then history.drop 1 else history
  let st2 := { st with performanceHistory := history }
  if history.length ≥ st.settings.minimumQuestionsForAdjustment then
    updateDifficulty st2
  else st2

/-- getFilteredCards of the adaptive difficulty module: identity when
adaptive difficulty is disabled, otherwise keep the cards whose difficulty
score lies within 0.7 to 1.3 times the current level multiplier. -/
def getFilteredCards (st : AdaptiveState) (allCards : List Card) : List Card :=
  if !st.settings.enableAdaptiveDifficulty then allCards
  else
    allCards.filter (fun card =>
      let cardDifficulty := calculateCardDifficulty card
      let targetDifficulty := (currentDifficulty st).multiplier
      decide (cardDifficulty ≥ targetDifficulty * (7/10) ∧
        cardDifficulty ≤ targetDifficulty * (13/10)))

/-- resetDifficulty of the adaptive difficulty module: back to the first
level, empty history; the settings are untouched. -/
def adResetDifficulty (st : AdaptiveState) : AdaptiveState :=
  { st with currentLevelIndex := 0, performanceHistory := [] }

/-- updateSettings of the adaptive difficulty module; the source merges a
partial record, modelled here as supplying the full record. -/
def adUpdateSettings (st : AdaptiveState) (s : AdaptiveSettings) : AdaptiveState :=
  { st with settings := s }

/-- Operations of the adaptive difficulty manager, for stating invariants
over arbitrary call sequences. -/
inductive AOp where
  | record (a : QuizAnswer)
  | reset
  | updateSettings (s : AdaptiveSettings)

/-- Apply one adaptive manager operation. -/
def applyA (st : AdaptiveState) : AOp → AdaptiveState
  | AOp.record a => adRecordAnswer st a
  | AOp.reset => adResetDifficulty st
  | AOp.updateSettings s => adUpdateSettings st s

/-- Run a sequence of adaptive manager operations from a state. -/
def runA (st : AdaptiveState) (ops : List AOp) : AdaptiveState :=
  ops.foldl applyA st

/-- QuizSession record from src/types/quiz.ts; ISO timestamp strings are
carried as rational clock values. The optional score field is never set by
the manager and is omitted. -/
structure QuizSession where
  id : String
  questions : List QuizQuestion
  answers : List QuizAnswer
  startTime : ℚ
  endTime : Option ℚ
  totalQuestions : Nat
  isCompleted : Bool
deriving DecidableEq

/-- QuizResult record from src/types/quiz.ts. -/
structure QuizResult where
  sessionId : String
  score : Nat
  totalQuestions : Nat
  accuracy : ℚ
  timeSpent : ℚ
  answers : List QuizAnswer
  date : String
deriving DecidableEq

/-- State of the QuizSessionManager singleton
(src/utils/quizSessionManager.ts) together with its collaborators: the
adaptive difficulty manager state and the four adaptive related entries of
the settings manager that startNewSession reads. -/
structure ManagerState where
  currentSession : Option QuizSession
  questions : List QuizQuestion
  answers : List QuizAnswer
  adaptive : AdaptiveState
  settings : AdaptiveSettings
deriving DecidableEq

/-- Fresh manager state: no session, default settings, beginner adaptive
state. -/
def initialManagerState : ManagerState :=
  ⟨none, [], [], initialAdaptiveState, defaultAdaptiveSettings⟩

/-- startNewSession from quizSessionManager.ts lines 206 to 243: copy the
user settings into the adaptive manager, filter the pool when adaptive
difficulty is enabled (falling back to the full pool when the filter
starves it), generate the questions and open the session. The clock now is
used for the session id and start time; sh and pick inject the
randomness. -/
def startNewSession (sh : List String → List String) (now : Nat)
    (pick : Nat → Nat) (st : ManagerState) (cards : List Card)
    (questionCount : Nat) : ManagerState × QuizSession :=
  let adaptive := adUpdateSettings st.adaptive st.settings
  let cardsToUse :=
    if st.settings.enableAdaptiveDifficulty then
      let filteredCards := getFilteredCards adaptive cards
      if filteredCards.length > 0 then filteredCards else cards
    else cards
  let questions := generateQuizQuestions sh now pick cardsToUse questionCount
  let session : QuizSession :=
    { id := "quiz_" ++ toString now
      questions := questions
      answers := []
      startTime := (now : ℚ)
      endTime := none
      totalQuestions := questions.length
      isCompleted := false }
  let st2 : ManagerState :=
    { st with
        currentSession := some session
        questions := questions
        answers := []
        adaptive := adaptive }
  (st2, session)

/-- recordAnswer from quizSessionManager.ts lines 256 to 266: no op
without a session or on a completed one; otherwise append the answer to
the answer list and forward it to the adaptive difficulty manager. -/
def recordAnswer (st : ManagerState) (answer : QuizAnswer) : ManagerState :=
  match st.currentSession with
  | none => st
  | some s =>
    if s.isCompleted then st
    else
      let answers := st.answers ++ [answer]
      { st with
          answers := answers
          currentSession := some ({ s with answers := answers })
          adaptive := adRecordAnswer st.adaptive answer }

/-- isQuizComplete from quizSessionManager.ts lines 283 to 285. -/
def isQuizComplete (st : ManagerState) : Bool :=
  st.questions.length ≤ st.answers.length

/-- completeSession from quizSessionManager.ts lines 288 to 318: null when
no session exists or the quiz is not complete; otherwise seal the session
and build the QuizResult (the emission to the progress tracker is a
persistence side effect outside this model). The parameters now and today
stand for the clock readings. -/
def completeSession (st : ManagerState) (now : ℚ) (today : String) :
    ManagerState × Option QuizResult :=
  match st.currentSession with
  | none => (st, none)
  | some s =>
    if !isQuizComplete st then (st, none)
    else
      let s2 := { s with endTime := some now, isCompleted := true }
      let correctAnswers := (st.answers.filter (fun a => a.isCorrect)).length
      let totalQuestions := st.answers.length
      let accuracy : ℚ :=
        if totalQuestions > 0 then ((correctAnswers : ℚ) / (totalQuestions : ℚ)) * 100
        else 0
      let timeSpent := now - s.startTime
      let result : QuizResult :=
        { sessionId := s.id
          score := correctAnswers
          totalQuestions := totalQuestions
          accuracy := accuracy
          timeSpent := timeSpent
          answers := st.answers
          date := today }
      ({ st with currentSession := some s2 }, some result)

/-- resetSession from quizSessionManager.ts lines 350 to 354: clears the
current session, the question list and the answer list; nothing else. -/
def resetSession (st : ManagerState) : ManagerState :=
  { st with currentSession := none, questions := [], answers := [] }

/-- resetAdaptiveDifficulty from quizSessionManager.ts lines 424 to 426:
delegates to resetDifficulty of the adaptive manager. -/
def resetAdaptiveDifficulty (st : ManagerState) : ManagerState :=
  { st with adaptive := adResetDifficulty st.adaptive }

/-- A recorded correct answer used in concrete scenarios. -/
def correctAnswerRec : QuizAnswer := ⟨"q", "x", 0, true, 0⟩

/-- A recorded incorrect answer used in concrete scenarios. -/
def wrongAnswerRec : QuizAnswer := ⟨"q", "x", 0, false, 0⟩

/-- Card whose correct answer comi is listed in the misspelling table as
one of its own misspellings. -/
def comiCard : Card :=
  ⟨"card-1", "Eu _____ (comer) pizza ontem", "comer", "pretérito_perfeito",
    "eu", "comi", "regular", "food"⟩

/-- Card whose correct answer beber has no table entry, no accents, and
whose only synthesized misspelling collides with the fallback filler. -/
def beberCard : Card :=
  ⟨"card-b", "Eu quero _____ (beber) agua", "beber", "pretérito_perfeito",
    "eu", "beber", "regular", "food"⟩

/-- Pool for the C5 counterexample: the target card vi, three same tense
cards of other verbs all answering vis (the fallback filler of vi), and two
cards of another tense, giving four distinct correct answers overall. -/
def viCard : Card :=
  ⟨"c1", "Eu _____ (ver) o filme", "ver", "pretérito_perfeito", "eu", "vi",
    "irregular", "media"⟩

/-- Second card of the C5 counterexample pool. -/
def visCard2 : Card :=
  ⟨"c2", "p2", "falar", "pretérito_perfeito", "eu", "vis", "regular", "x"⟩

/-- Third card of the C5 counterexample pool. -/
def visCard3 : Card :=
  ⟨"c3", "p3", "comer", "pretérito_perfeito", "eu", "vis", "regular", "x"⟩

/-- Fourth card of the C5 counterexample pool. -/
def visCard4 : Card :=
  ⟨"c4", "p4", "viver", "pretérito_perfeito", "eu", "vis", "regular", "x"⟩

/-- Fifth card of the C5 counterexample pool. -/
def zCard : Card :=
  ⟨"c5", "p5", "amar", "pretérito_imperfeito", "eu", "z", "regular", "x"⟩

/-- Sixth card of the C5 counterexample pool. -/
def wCard : Card :=
  ⟨"c6", "p6", "estar", "pretérito_imperfeito", "eu", "w", "regular", "x"⟩

/-- The C5 counterexample pool. -/
def viPool : List Card := [viCard, visCard2, visCard3, visCard4, zCard, wCard]

/-- Two distinct cards sharing one id, for the C6 counterexample. -/
def dupCardA : Card :=
  ⟨"d", "pa", "comer", "pretérito_perfeito", "eu", "comi", "regular", "x"⟩

/-- Second card with the duplicated id d. -/
def dupCardB : Card :=
  ⟨"d", "pb", "falar", "pretérito_perfeito", "eu", "falei", "regular", "x"⟩

/-- Adaptive settings with the maximum adjustment speed 1.0 (the settings
manager documents the range 0.1 to 1.0). -/
def fastSettings : AdaptiveSettings := ⟨true, 1, 5, 10⟩

/-- Operation sequence for the C4 failing input: full adjustment speed,
five correct answers (which lift the level to intermediate), then eight
incorrect answers in a row. -/
def strugglingRun : List AOp :=
  AOp.updateSettings fastSettings ::
    (List.replicate 5 (AOp.record correctAnswerRec) ++
      List.replicate 8 (AOp.record wrongAnswerRec))

/-- Manager state after starting a one question session on the single comi
card and recording two answers into it. -/
def overRecordedState : ManagerState :=
  recordAnswer
    (recordAnswer
      (startNewSession id 0 (fun _ => 0) initialManagerState [comiCard] 1).1
      correctAnswerRec)
    correctAnswerRec

/-- The five card comer pool of end to end scenario 1: one verb across the
five default tenses, pairwise distinct ids. -/
def comerPool : List Card :=
  [ ⟨"comer-1", "f1", "comer", "pretérito_perfeito", "eu", "comi", "regular", "x"⟩,
    ⟨"comer-2", "f2", "comer", "pretérito_imperfeito", "eu", "comia", "regular", "x"⟩,
    ⟨"comer-3", "f3", "comer", "futuro_do_presente", "eu", "comerei", "regular", "x"⟩,
    ⟨"comer-4", "f4", "comer", "presente_do_subjuntivo", "eu", "coma", "regular", "x"⟩,
    ⟨"comer-5", "f5", "comer", "imperfeito_do_subjuntivo", "eu", "comesse", "regular", "x"⟩ ]

/-- Manager state with adaptive difficulty disabled in the user settings. -/
def adaptiveOffState : ManagerState :=
  { initialManagerState with settings := ⟨false, 3/10, 5, 10⟩ }

/-- A placeholder question for the ten question session of end to end
scenario 2. -/
def scenarioQuestion : QuizQuestion :=
  ⟨"qq", "phrase", ["comi", "comei", "comu", "come"], "comi", 0, "card-1"⟩

/-- Session of end to end scenario 2: ten questions, all ten answers
recorded. -/
def tenSession : QuizSession :=
  ⟨"quiz_0", List.replicate 10 scenarioQuestion, List.replicate 10 correctAnswerRec,
    0, none, 10, false⟩

/-- Manager state holding the ten question session with ten correct
answers recorded. -/
def tenState : ManagerState :=
  ⟨some tenSession, List.replicate 10 scenarioQuestion,
    List.replicate 10 correctAnswerRec, initialAdaptiveState, defaultAdaptiveSettings⟩

/-- Adaptive state whose settings disable adaptive difficulty. -/
def disabledAdaptiveState : AdaptiveState :=
  ⟨[], 0, ⟨false, 3/10, 5, 10⟩⟩

/-- C1: the claim that generateDistractors always returns exactly three
pairwise distinct strings none of which equals the correct answer fails on
the code. With the comi card alone in its pool the misspelling table entry
for comi lists comi itself, so the correct answer is returned as a
distractor; with the beber card alone in its pool only a single distractor
is produced, because the one synthesized misspelling bebers collides with
the final fallback filler and the fallback loop then breaks. -/
theorem C1_generateDistractors_failing_eval :
    generateDistractors comiCard [comiCard] = ["comei", "comi", "comis"] ∧
    comiCard.correctAnswer = "comi" ∧
    "comi" ∈ generateDistractors comiCard [comiCard] ∧
    (generateDistractors beberCard [beberCard]).length = 1 := by
  with_unfolding_all decide

/-- C2 counterexample: recordAnswer does not bound the answer list by the
question count. After starting a one question session on the single comi
card and recording two answers, the session manager holds two answers for
one question. -/
theorem C2_overrecording_counterexample :
    overRecordedState.questions.length = 1 ∧
    overRecordedState.answers.length = 2 := by
  with_unfolding_all decide

/-- C2 (amended): the answer count never decreases: recordAnswer either
leaves the answer list unchanged or appends exactly one answer (and leaves
the question list unchanged), and completeSession never touches the answer
list. The original bound by the question count does not hold, see the
counterexample. -/
theorem C2_answer_count_monotone (st : ManagerState) (a : QuizAnswer)
    (now : ℚ) (today : String) :
    st.answers.length ≤ (recordAnswer st a).answers.length ∧
    (recordAnswer st a).questions = st.questions ∧
    (completeSession st now today).1.answers = st.answers := by
  refine ⟨?_, ?_, ?_⟩
  · unfold recordAnswer
    cases st.currentSession with
    | none => exact le_refl _
    | some s =>
      by_cases hc : s.isCompleted
      · simp [hc]
      · simp [hc]
  · unfold recordAnswer
    cases st.currentSession with
    | none => rfl
    | some s =>
      by_cases hc : s.isCompleted
      · simp [hc]
      · simp [hc]
  · unfold completeSession
    cases st.currentSession with
    | none => rfl
    | some s =>
      by_cases hc : isQuizComplete st
      · simp [hc]
      · simp [hc]

/-- Helper for C9: one difficulty adjustment keeps the level index within
the four levels, thanks to the clamping of the committed index. -/
theorem updateDifficulty_level_le (st : AdaptiveState)
    (h : st.currentLevelIndex ≤ 3) :
    (updateDifficulty st).currentLevelIndex ≤ 3 := by
  have h3 : ((st.currentLevelIndex : Int)) ≤ 3 := by exact_mod_cast h
  simp only [updateDifficulty, difficultyLevels]
  split_ifs <;> simp_all

/-- Helper for C9: every adaptive manager operation preserves the level
index bound. -/
theorem applyA_level_le (st : AdaptiveState) (op : AOp)
    (h : st.currentLevelIndex ≤ 3) :
    (applyA st op).currentLevelIndex ≤ 3 := by
  cases op with
  | record a =>
    simp only [applyA, adRecordAnswer]
    split_ifs <;> first
      | exact updateDifficulty_level_le _ h
      | exact h
  | reset => exact Nat.zero_le 3
  | updateSettings s => exact h

/-- C9: after any sequence of recorded answers, difficulty adjustments,
setting updates and resets, the current difficulty level index stays
within the four defined tiers. -/
theorem C9_level_index_bounded (ops : List AOp) :
    (runA initialAdaptiveState ops).currentLevelIndex ≤ 3 := by
  suffices h : ∀ st : AdaptiveState, st.currentLevelIndex ≤ 3 →
      (runA st ops).currentLevelIndex ≤ 3 by
    exact h initialAdaptiveState (by norm_num [initialAdaptiveState])
  induction ops with
  | nil => intro st h; exact h
  | cons op rest ih =>
    intro st h
    exact ih (applyA st op) (applyA_level_le st op h)

/-- C10: resetSession clears exactly the session managers own state (the
current session, the question list and the answer list) and leaves the
adaptive difficulty state and the settings untouched, so the card
filtering used by the next startNewSession is unchanged; the separate
resetAdaptiveDifficulty operation is what clears the difficulty level and
the performance history (keeping the adaptive settings). -/
theorem C10_resetSession_frame (st : ManagerState) :
    (resetSession st).adaptive = st.adaptive ∧
    (resetSession st).settings = st.settings ∧
    (resetSession st).currentSession = none ∧
    (resetSession st).questions = [] ∧
    (resetSession st).answers = [] ∧
    (∀ pool, getFilteredCards (adUpdateSettings (resetSession st).adaptive
        (resetSession st).settings) pool =
      getFilteredCards (adUpdateSettings st.adaptive st.settings) pool) ∧
    (resetAdaptiveDifficulty st).adaptive.currentLevelIndex = 0 ∧
    (resetAdaptiveDifficulty st).adaptive.performanceHistory = [] ∧
    (resetAdaptiveDifficulty st).adaptive.settings = st.adaptive.settings := by
  exact ⟨rfl, rfl, rfl, rfl, rfl, fun pool => rfl, rfl, rfl, rfl⟩

/-- C7: getFilteredCards returns the pool unchanged whenever adaptive
difficulty is disabled; when enabled it keeps exactly the cards whose
difficulty score 0.4 times the tense difficulty plus 0.3 times the verb
type difficulty plus 0.3 times the verb frequency (with absent verbs
scoring the maximum 2.0 inside verbFrequency) lies within 0.7 to 1.3 times
the current level multiplier. -/
theorem C7_getFilteredCards_spec (st : AdaptiveState) (pool : List Card) :
    (st.settings.enableAdaptiveDifficulty = false →
      getFilteredCards st pool = pool) ∧
    (st.settings.enableAdaptiveDifficulty = true → ∀ c,
      c ∈ getFilteredCards st pool ↔
        c ∈ pool ∧
        (7/10) * (currentDifficulty st).multiplier ≤
          (4/10) * tenseDifficulty c.tense + (3/10) * verbTypeDifficulty c.verbType +
            (3/10) * verbFrequency c.verb ∧
        (4/10) * tenseDifficulty c.tense + (3/10) * verbTypeDifficulty c.verbType +
          (3/10) * verbFrequency c.verb ≤
          (13/10) * (currentDifficulty st).multiplier) := by
  constructor
  · intro h
    simp [getFilteredCards, h]
  · intro h c
    simp only [getFilteredCards, h, Bool.not_true, Bool.false_eq_true, if_false,
      List.mem_filter, decide_eq_true_eq, calculateCardDifficulty]
    constructor
    · rintro ⟨hm, h1, h2⟩
      exact ⟨hm, by linarith, by linarith⟩
    · rintro ⟨hm, h1, h2⟩
      exact ⟨hm, by linarith, by linarith⟩

/-- C7 witness: with adaptive difficulty disabled the singleton comi pool
comes back unchanged, and with it enabled the comi card (score exactly the
beginner multiplier 1.0) is kept. -/
theorem C7_getFilteredCards_spec_witness :
    (disabledAdaptiveState.settings.enableAdaptiveDifficulty = false ∧
      getFilteredCards disabledAdaptiveState [comiCard] = [comiCard]) ∧
    (initialAdaptiveState.settings.enableAdaptiveDifficulty = true ∧
      (comiCard ∈ getFilteredCards initialAdaptiveState [comiCard] ↔
        comiCard ∈ [comiCard] ∧
        (7/10) * (currentDifficulty initialAdaptiveState).multiplier ≤
          (4/10) * tenseDifficulty comiCard.tense +
            (3/10) * verbTypeDifficulty comiCard.verbType +
            (3/10) * verbFrequency comiCard.verb ∧
        (4/10) * tenseDifficulty comiCard.tense +
          (3/10) * verbTypeDifficulty comiCard.verbType +
          (3/10) * verbFrequency comiCard.verb ≤
          (13/10) * (currentDifficulty initialAdaptiveState).multiplier)) :=
  ⟨⟨rfl, (C7_getFilteredCards_spec disabledAdaptiveState [comiCard]).1 rfl⟩,
    ⟨rfl, (C7_getFilteredCards_spec initialAdaptiveState [comiCard]).2 rfl comiCard⟩⟩

/-- C8: completeSession yields null exactly when no session exists or the
answer count is below the question count; otherwise it returns a result
whose score is the number of answers marked correct, whose total is the
answer count, and whose accuracy is score over total times one hundred. -/
theorem C8_completeSession_spec (st : ManagerState) (now : ℚ) (today : String) :
    ((st.currentSession = none ∨ st.answers.length < st.questions.length) →
      (completeSession st now today).2 = none) ∧
    (∀ s, st.currentSession = some s →
      st.questions.length ≤ st.answers.length →
      ∃ r, (completeSession st now today).2 = some r ∧
        r.score = (st.answers.filter (fun a => a.isCorrect)).length ∧
        r.totalQuestions = st.answers.length ∧
        r.accuracy = ((r.score : ℚ) / (r.totalQuestions : ℚ)) * 100) := by
  constructor
  · intro h
    unfold completeSession
    cases hs : st.currentSession with
    | none => rfl
    | some s =>
      rcases h with h | h
      · rw [hs] at h; cases h
      · have hq : isQuizComplete st = false := by
          simp [isQuizComplete]
          omega
        simp [hq]
  · intro s hs hle
    unfold completeSession
    rw [hs]
    have hq : isQuizComplete st = true := by
      simp [isQuizComplete, hle]
    rw [hq]
    simp only [Bool.not_true, Bool.false_eq_true, if_false]
    refine ⟨_, rfl, rfl, rfl, ?_⟩
    by_cases hz : st.answers.length > 0
    · simp [hz]
    · have h0 : st.answers.length = 0 := by omega
      have hfil : (st.answers.filter (fun a => a.isCorrect)).length = 0 := by
        have := List.length_filter_le (fun a => a.isCorrect) st.answers
        omega
      simp [hz, h0, hfil]

/-- Helper for C3: five recorded answers from the initial state append to
the history without triggering the window shift, and the fifth record
triggers exactly one difficulty adjustment. -/
theorem runA_five_records (a1 a2 a3 a4 a5 : QuizAnswer) :
    runA initialAdaptiveState
      [AOp.record a1, AOp.record a2, AOp.record a3, AOp.record a4,
        AOp.record a5] =
    updateDifficulty ⟨[a1, a2, a3, a4, a5], 0, defaultAdaptiveSettings⟩ := by
  simp [runA, applyA, adRecordAnswer, initialAdaptiveState, defaultAdaptiveSettings]

/-- Helper for C3: the performance over five correct answers under the
default settings is perfect accuracy with a streak of five. -/
theorem perf_five_correct (a1 a2 a3 a4 a5 : QuizAnswer)
    (h1 : a1.isCorrect = true) (h2 : a2.isCorrect = true)
    (h3 : a3.isCorrect = true) (h4 : a4.isCorrect = true)
    (h5 : a5.isCorrect = true) :
    (calculateUserPerformance
        ⟨[a1, a2, a3, a4, a5], 0, defaultAdaptiveSettings⟩).recentAccuracy = 1 ∧
    (calculateUserPerformance
        ⟨[a1, a2, a3, a4, a5], 0, defaultAdaptiveSettings⟩).streakCount = 5 := by
  simp [calculateUserPerformance, lastWindow, streakOf, defaultAdaptiveSettings,
    List.filter, h1, h2, h3, h4, h5]

/-- Helper for C3: an adjustment from beginner with perfect recent
accuracy, a streak of five and the default adjustment speed 0.3 commits a
round of 0.3, leaving the level index at beginner. -/
theorem updateDifficulty_beginner_default_stays (st : AdaptiveState)
    (hacc : (calculateUserPerformance st).recentAccuracy = 1)
    (hstreak : (calculateUserPerformance st).streakCount = 5)
    (hidx : st.currentLevelIndex = 0)
    (hspeed : st.settings.difficultyAdjustmentSpeed = 3/10) :
    (updateDifficulty st).currentLevelIndex = 0 := by
  have hr : round ((3:ℚ)/10) = 0 := by with_unfolding_all decide
  simp only [updateDifficulty, hacc, hstreak, hidx, hspeed]
  norm_num [difficultyLevels]
  rw [hr]

/-- C3 counterexample: with the default settings (adjustment speed 0.3,
minimum five questions) five consecutive correct answers from the initial
beginner state do not advance the difficulty tier at all: the raw plus one
tier move is damped to 0.3 and rounded back to zero, so the committed
index stays 0 instead of moving toward intermediate. -/
theorem C3_five_correct_counterexample :
    ¬ 0 < (runA initialAdaptiveState
        (List.replicate 5 (AOp.record correctAnswerRec))).currentLevelIndex := by
  with_unfolding_all decide

/-- C3 (amended): recording five consecutive correct answers from the
initial beginner state with default settings triggers one adjustment whose
desired target is intermediate, but the committed level index is
round of 0.3, i.e. zero: the tier stays beginner. The index moves by at
most one per step and, at the default speed 0.3, by exactly zero. -/
theorem C3_five_correct_stays_beginner (a1 a2 a3 a4 a5 : QuizAnswer)
    (h1 : a1.isCorrect = true) (h2 : a2.isCorrect = true)
    (h3 : a3.isCorrect = true) (h4 : a4.isCorrect = true)
    (h5 : a5.isCorrect = true) :
    (runA initialAdaptiveState
      [AOp.record a1, AOp.record a2, AOp.record a3, AOp.record a4,
        AOp.record a5]).currentLevelIndex = 0 := by
  rw [runA_five_records]
  obtain ⟨hacc, hstreak⟩ := perf_five_correct a1 a2 a3 a4 a5 h1 h2 h3 h4 h5
  exact updateDifficulty_beginner_default_stays _ hacc hstreak rfl rfl

/-- C3 witness: the amended theorem applied to five concrete correct
answers. -/
theorem C3_five_correct_stays_beginner_witness :
    correctAnswerRec.isCorrect = true ∧
    (runA initialAdaptiveState
      [AOp.record correctAnswerRec, AOp.record correctAnswerRec,
        AOp.record correctAnswerRec, AOp.record correctAnswerRec,
        AOp.record correctAnswerRec]).currentLevelIndex = 0 :=
  ⟨rfl, C3_five_correct_stays_beginner _ _ _ _ _ rfl rfl rfl rfl rfl⟩

/-- C4: the code never moves the difficulty down. The streak counter of
calculateUserPerformance only counts trailing correct answers and is never
negative, so the condition streak at most minus two of the decrease branch
is unsatisfiable. In the failing run (full adjustment speed, five correct
answers lifting the level to intermediate, then eight consecutive
incorrect answers) the final window accuracy is at most 0.4 and the window
ends in a long incorrect streak, yet the level stays at index one instead
of moving down one tier as the claim requires. -/
theorem C4_no_decrease_eval :
    (runA initialAdaptiveState strugglingRun).currentLevelIndex = 1 ∧
    (calculateUserPerformance
      (runA initialAdaptiveState strugglingRun)).recentAccuracy ≤ 4/10 ∧
    (calculateUserPerformance
      (runA initialAdaptiveState strugglingRun)).streakCount = 0 ∧
    (∀ answers : List QuizAnswer, 0 ≤ streakOf answers) := by
  refine ⟨?_, ?_, ?_, fun answers => Int.ofNat_nonneg _⟩
  · with_unfolding_all decide
  · with_unfolding_all decide
  · with_unfolding_all decide

/-- Helper for C5: the retry loop of the question builder only ever
appends to the option list. -/
theorem addFreshUpTo4_append (cands : List String) :
    ∀ opts : List String, ∃ t, addFreshUpTo4 opts cands = opts ++ t := by
  induction cands with
  | nil => intro opts; exact ⟨[], by simp [addFreshUpTo4]⟩
  | cons c rest ih =>
    intro opts
    by_cases hc : c ∈ opts
    · obtain ⟨t, ht⟩ := ih opts
      exact ⟨t, by simp only [addFreshUpTo4, if_pos hc]; exact ht⟩
    · by_cases hl : (opts ++ [c]).length ≥ 4
      · refine ⟨[c], ?_⟩
        simp only [addFreshUpTo4, if_neg hc]
        rw [if_pos hl]
      · obtain ⟨t, ht⟩ := ih (opts ++ [c])
        refine ⟨c :: t, ?_⟩
        simp only [addFreshUpTo4, if_neg hc]
        rw [if_neg hl, ht]
        simp

/-- C5 counterexample: the vi pool carries four distinct correct answers,
yet the built question has only three options. All three same tense cards
answer vis, the priority three stage pushes vis three times, the
deduplication collapses them to one, the fallback filler vis is already
present, and the question builder ends with vi, vis and the synthesized
vix. This refutes the claim that the options are always exactly four
pairwise distinct strings. -/
theorem C5_three_options_counterexample :
    (dedupFirst (viPool.map (fun c => c.correctAnswer))).length = 4 ∧
    (createQuizQuestion id 0 viCard viPool).options = ["vi", "vis", "vix"] := by
  with_unfolding_all decide

/-- C5 (amended): for every card, pool and shuffle that permutes its
input, the built question always contains the correct answer among its
options, has at most four options (exactly four is not guaranteed, see the
counterexample, and neither is pairwise distinctness), and its correct
answer index points at the correct answer. -/
theorem C5_question_options_spec (sh : List String → List String) (now : Nat)
    (card : Card) (pool : List Card)
    (hsh : ∀ l, List.Perm (sh l) l) :
    card.correctAnswer ∈ (createQuizQuestion sh now card pool).options ∧
    (createQuizQuestion sh now card pool).options.length ≤ 4 ∧
    0 ≤ (createQuizQuestion sh now card pool).correctAnswerIndex ∧
    (createQuizQuestion sh now card pool).options.get?
      (createQuizQuestion sh now card pool).correctAnswerIndex.toNat =
      some card.correctAnswer := by
  simp only [createQuizQuestion]
  set ca := card.correctAnswer with hca
  set ds := generateDistractors card pool with hds
  have h1 : dedupFirst (ca :: ds) = ca :: dedupFirstAux [ca] ds := by
    simp [dedupFirst, dedupFirstAux]
  set u1 := dedupFirst (ca :: ds) with hu1
  have hhead : ∃ l, (if u1.length < 4 then addFreshUpTo4 u1 ds else u1) = ca :: l := by
    by_cases h : u1.length < 4
    · obtain ⟨t, ht⟩ := addFreshUpTo4_append ds u1
      rw [if_pos h, ht, h1]
      exact ⟨dedupFirstAux [ca] ds ++ t, by simp⟩
    · rw [if_neg h, h1]
      exact ⟨dedupFirstAux [ca] ds, rfl⟩
  obtain ⟨l2, hl2⟩ := hhead
  set u2 := if u1.length < 4 then addFreshUpTo4 u1 ds else u1 with hu2
  have hhead3 : ∃ l, (if u2.length < 4 then u2 ++ [ca ++ "x"] else u2) = ca :: l := by
    by_cases h : u2.length < 4
    · rw [if_pos h, hl2]; exact ⟨l2 ++ [ca ++ "x"], by simp⟩
    · rw [if_neg h, hl2]; exact ⟨l2, rfl⟩
  obtain ⟨l3, hl3⟩ := hhead3
  set u3 := if u2.length < 4 then u2 ++ [ca ++ "x"] else u2 with hu3
  have htake : u3.take 4 = ca :: l3.take 3 := by rw [hl3]; rfl
  have hmemf : ca ∈ u3.take 4 := by rw [htake]; exact List.mem_cons_self _ _
  have hperm := hsh (u3.take 4)
  have hmem : ca ∈ sh (u3.take 4) := hperm.mem_iff.2 hmemf
  have hlen : (sh (u3.take 4)).length ≤ 4 := by
    rw [hperm.length_eq]
    exact List.length_take_le _ _
  refine ⟨hmem, hlen, ?_, ?_⟩
  · simp only [jsIndexOf, if_pos hmem]
    exact Int.ofNat_nonneg _
  · simp only [jsIndexOf, if_pos hmem, Int.toNat_natCast]
    exact List.indexOf_get? hmem

/-- C5 witness: the amended theorem applied to the vi card, the vi pool
and the identity shuffle. -/
theorem C5_question_options_spec_witness :
    viCard.correctAnswer ∈ (createQuizQuestion id 0 viCard viPool).options ∧
    (createQuizQuestion id 0 viCard viPool).options.length ≤ 4 ∧
    0 ≤ (createQuizQuestion id 0 viCard viPool).correctAnswerIndex ∧
    (createQuizQuestion id 0 viCard viPool).options.get?
      (createQuizQuestion id 0 viCard viPool).correctAnswerIndex.toNat =
      some viCard.correctAnswer :=
  C5_question_options_spec id 0 viCard viPool (fun l => List.Perm.refl l)

/-- Helper for C6: a duplicate free list of strings contained in another
list is no longer than it. -/
theorem nodup_subset_length_le {l1 l2 : List String} (h : l1.Nodup)
    (hs : ∀ a ∈ l1, a ∈ l2) : l1.length ≤ l2.length := by
  calc l1.length = l1.toFinset.card := (List.toFinset_card_of_nodup h).symm
    _ ≤ l2.toFinset.card := Finset.card_le_card (by
        intro a ha
        rw [List.mem_toFinset] at ha ⊢
        exact hs a ha)
    _ ≤ l2.length := List.toFinset_card_le l2

/-- Helper for C6: over a pool with pairwise distinct card ids, the
question generation loop always finds an unused card while fuel remains,
so it produces exactly fuel questions, built from pairwise distinct cards
of the pool that were not used before. -/
theorem genLoop_spec (sh : List String → List String) (now : Nat)
    (pick : Nat → Nat) (cards : List Card)
    (hids : (cards.map Card.id).Nodup) :
    ∀ (fuel step : Nat) (used : List String), used.Nodup →
      (∀ u ∈ used, u ∈ cards.map Card.id) →
      fuel + used.length ≤ cards.length →
      (genLoop sh now pick cards fuel step used).length = fuel ∧
      ((genLoop sh now pick cards fuel step used).map QuizQuestion.cardId).Nodup ∧
      (∀ q ∈ genLoop sh now pick cards fuel step used,
        q.cardId ∈ cards.map Card.id ∧ q.cardId ∉ used) := by
  intro fuel
  induction fuel with
  | zero =>
    intro step used _ _ _
    exact ⟨rfl, by simp [genLoop], by simp [genLoop]⟩
  | succ fuel ih =>
    intro step used hnd hsub hle
    have hsplit := List.length_eq_length_filter_add
      (l := cards) (fun c => decide (c.id ∉ used))
    set available := cards.filter (fun c => decide (c.id ∉ used)) with havail
    set out := cards.filter (fun c => !(decide (c.id ∉ used))) with hout
    have houtlen : out.length ≤ used.length := by
      have hsubl : (out.map Card.id).Sublist (cards.map Card.id) :=
        (List.filter_sublist cards).map Card.id
      have hndout : (out.map Card.id).Nodup := hids.sublist hsubl
      have hmemout : ∀ a ∈ out.map Card.id, a ∈ used := by
        intro a ha
        obtain ⟨c, hc, rfl⟩ := List.mem_map.1 ha
        have := (List.mem_filter.1 hc).2
        simpa using this
      have := nodup_subset_length_le hndout hmemout
      simpa using this
    have hpos : 0 < available.length := by omega
    have hlen0 : ¬ available.length = 0 := by omega
    have hidx : pick step % available.length < available.length :=
      Nat.mod_lt _ hpos
    have hchosen : available.getD (pick step % available.length) default ∈ available := by
      rw [List.getD_eq_getElem _ _ hidx]
      exact List.getElem_mem _
    set chosen := available.getD (pick step % available.length) default with hch
    have hmemc : chosen ∈ cards := (List.mem_filter.1 hchosen).1
    have hnotused : chosen.id ∉ used := by
      have := (List.mem_filter.1 hchosen).2
      simpa using this
    have hidin : chosen.id ∈ cards.map Card.id := List.mem_map_of_mem Card.id hmemc
    have hrec := ih (step + 1) (chosen.id :: used)
      (List.nodup_cons.2 ⟨hnotused, hnd⟩)
      (by
        intro u hu
        rcases List.mem_cons.1 hu with h | h
        · rw [h]; exact hidin
        · exact hsub u h)
      (by simp only [List.length_cons]; omega)
    obtain ⟨hlen, hnodup, hprops⟩ := hrec
    have hgen : genLoop sh now pick cards (fuel + 1) step used =
        createQuizQuestion sh now chosen cards ::
          genLoop sh now pick cards fuel (step + 1) (chosen.id :: used) := by
      simp only [genLoop]
      rw [if_neg hlen0]
    rw [hgen]
    refine ⟨by simp [hlen], ?_, ?_⟩
    · simp only [List.map_cons, List.nodup_cons]
      constructor
      · intro hmem
        obtain ⟨q, hq, hqid⟩ := List.mem_map.1 hmem
        have := (hprops q hq).2
        rw [hqid] at this
        exact this (List.mem_cons_self _ _)
      · exact hnodup
    · intro q hq
      rcases List.mem_cons.1 hq with h | h
      · rw [h]
        exact ⟨hidin, hnotused⟩
      · obtain ⟨hin, hnin⟩ := hprops q h
        exact ⟨hin, fun hcon => hnin (List.mem_cons_of_mem _ hcon)⟩

/-- C6 counterexample: a pool of two distinct cards sharing one id. The
requested two question session contains a single question, because using
the first card exhausts the shared id, so startNewSession does not always
produce the minimum of the question count and the pool size. -/
theorem C6_duplicate_id_counterexample :
    min 2 [dupCardA, dupCardB].length = 2 ∧
    (startNewSession id 0 (fun _ => 0) initialManagerState
      [dupCardA, dupCardB] 2).2.questions.length = 1 := by
  with_unfolding_all decide

/-- C6 (amended): when the pool cards have pairwise distinct ids and
adaptive filtering is disabled (when enabled, filtering can shrink the
effective pool first), startNewSession produces exactly the minimum of the
requested count and the pool size many questions, built from pairwise
distinct cards of the pool, for every sequence of random card choices. -/
theorem C6_session_question_count (sh : List String → List String)
    (now : Nat) (pick : Nat → Nat) (st : ManagerState) (cards : List Card)
    (count : Nat) (hids : (cards.map Card.id).Nodup)
    (hoff : st.settings.enableAdaptiveDifficulty = false) :
    (startNewSession sh now pick st cards count).2.questions.length =
      min count cards.length ∧
    ((startNewSession sh now pick st cards count).2.questions.map
      QuizQuestion.cardId).Nodup ∧
    (∀ q ∈ (startNewSession sh now pick st cards count).2.questions,
      q.cardId ∈ cards.map Card.id) := by
  have hq : (startNewSession sh now pick st cards count).2.questions =
      generateQuizQuestions sh now pick cards count := by
    simp [startNewSession, hoff]
  rw [hq]
  unfold generateQuizQuestions
  by_cases hz : cards.length = 0
  · rw [if_pos hz, hz]
    simp
  · rw [if_neg hz]
    obtain ⟨h1, h2, h3⟩ := genLoop_spec sh now pick cards hids
      (min count cards.length) 0 [] List.nodup_nil
      (fun u hu => absurd hu (List.not_mem_nil u))
      (by simp only [List.length_nil, Nat.add_zero]
          exact Nat.min_le_right count cards.length)
    exact ⟨h1, h2, fun q hq2 => (h3 q hq2).1⟩

/-- C6 witness: the five card comer pool of end to end scenario 1 with a
requested count of ten yields exactly five questions. -/
theorem C6_session_question_count_witness :
    (comerPool.map Card.id).Nodup ∧
    adaptiveOffState.settings.enableAdaptiveDifficulty = false ∧
    (startNewSession id 0 (fun _ => 0) adaptiveOffState comerPool
      10).2.questions.length = 5 := by
  refine ⟨by with_unfolding_all decide, rfl, ?_⟩
  have h := (C6_session_question_count id 0 (fun _ => 0) adaptiveOffState
    comerPool 10 (by with_unfolding_all decide) rfl).1
  rw [h]
  with_unfolding_all decide

/-- C8 witness: completing the ten question session with all ten answers
correct yields a result with score ten and accuracy one hundred. -/
theorem C8_completeSession_spec_witness :
    tenState.currentSession = some tenSession ∧
    tenState.questions.length ≤ tenState.answers.length ∧
    ∃ r, (completeSession tenState 0 "2024-01-01").2 = some r ∧
      r.score = 10 ∧ r.totalQuestions = 10 ∧ r.accuracy = 100 := by
  refine ⟨rfl, by with_unfolding_all decide, ?_⟩
  obtain ⟨r, hr, hs, ht, ha⟩ := (C8_completeSession_spec tenState 0 "2024-01-01").2
    tenSession rfl (by with_unfolding_all decide)
  refine ⟨r, hr, ?_, ?_, ?_⟩
  · rw [hs]
    with_unfolding_all decide
  · rw [ht]
    with_unfolding_all decide
  · rw [ha, hs, ht]
    with_unfolding_all decide
